import Mathlib

/-!
Verification development for the owl-shop traffic-simulation engine
(pkg/shop/shop.go): a shallow embedding of the startup sequencing in
New, the weighted action table, the rate-controlled dispatch loop in
Start, and the per-impression dispatch in SimulatePageImpression,
together with theorems settling the specified properties.
-/

namespace OwlShop

/-- The six zero-argument producer methods registered as actions in New
(shop.go lines 86-91). -/
inductive ActionId where
  | createFrontendEvent
  | createCustomer
  | createAddress
  | deleteCustomer
  | modifyCustomer
  | createOrder
deriving DecidableEq, Repr

/-- The four event producers constructed and brought up by New
(customer, address, frontend, order services). -/
inductive Producer where
  | customer
  | address
  | frontend
  | order
deriving DecidableEq, Repr

/-- Which producer (service) owns each registered action method:
frontendSvc.CreateFrontendEvent, customerSvc.CreateCustomer,
addressSvc.CreateAddress, customerSvc.DeleteCustomer,
customerSvc.ModifyCustomer, orderSvc.CreateOrder. -/
def ownerOf : ActionId → Producer
  | ActionId.createFrontendEvent => Producer.frontend
  | ActionId.createCustomer => Producer.customer
  | ActionId.createAddress => Producer.address
  | ActionId.deleteCustomer => Producer.customer
  | ActionId.modifyCustomer => Producer.customer
  | ActionId.createOrder => Producer.order

/-- A weightedrand.Choice: an action item with an integer weight. -/
structure Choice where
  item : ActionId
  weight : Int
deriving DecidableEq, Repr

/-- The fixed choice table passed to weightedrand.NewChooser in New
(shop.go lines 85-92), in source order. -/
def newChoices : List Choice :=
  [Choice.mk ActionId.createFrontendEvent 1000,
   Choice.mk ActionId.createCustomer 50,
   Choice.mk ActionId.createAddress 30,
   Choice.mk ActionId.deleteCustomer 8,
   Choice.mk ActionId.modifyCustomer 6,
   Choice.mk ActionId.createOrder 5]

/-- Shop configuration relevant to the dispatch loop: RequestRate and
RequestRateInterval (the interval in nanoseconds, as a Go Duration). -/
structure Config where
  requestRate : Nat
  requestRateInterval : Nat
deriving DecidableEq, Repr

/-- Go time.Minute in nanoseconds: the timeout given to
context.WithTimeout at shop.go line 58. -/
def timeMinute : Nat := 60000000000

/-- Observable events of the New startup sequence: creation of the
timeout context (with its id and timeout), each service init call
(tagged with the id of the context it received), the go statements
launching background tasks, and the chooser construction call. -/
inductive Event where
  | mkContext (id : Nat) (timeout : Nat)
  | initSvc (p : Producer) (ctxId : Nat)
  | startBackground (p : Producer)
  | buildChooser
deriving DecidableEq, Repr

/-- Outcomes of the external calls New makes: the schema-registry and
service constructors (lines 33-56), each service Initialize call
(lines 61-79), and the weightedrand.NewChooser call (lines 85-92).
These are external to the engine, so the model quantifies over them. -/
structure Env where
  srOk : Bool
  customerNewOk : Bool
  addressNewOk : Bool
  frontendNewOk : Bool
  orderNewOk : Bool
  customerInit : Except String Unit
  addressInit : Except String Unit
  frontendInit : Except String Unit
  orderInit : Except String Unit
  chooserRes : Except String Unit
deriving Repr

/-- The Shop value New returns on success: the config and the chooser
built from the fixed choice table. -/
structure ShopM where
  cfg : Config
  choices : List Choice
deriving DecidableEq, Repr

/-- Shallow embedding of New (shop.go lines 28-105): sequential
early-return construction of the four services, one shared one-minute
timeout context, sequential Initialize calls in declared order each
receiving that same context, the two go statements for the address and
order background tasks, then chooser construction. Returns the result
together with the trace of observable events. -/
def runNew (env : Env) (cfg : Config) : Except String ShopM × List Event :=
  if env.srOk = false then
    (Except.error "failed to create schema registry client", [])
  else if env.customerNewOk = false then
    (Except.error "failed to create customer service", [])
  else if env.addressNewOk = false then
    (Except.error "failed to create address service", [])
  else if env.frontendNewOk = false then
    (Except.error "failed to create frontend service", [])
  else if env.orderNewOk = false then
    (Except.error "failed to create order service", [])
  else
    let t0 : List Event := [Event.mkContext 0 timeMinute]
    match env.customerInit with
    | Except.error e =>
        (Except.error ("failed to initialize customer service: " ++ e),
         t0 ++ [Event.initSvc Producer.customer 0])
    | Except.ok _ =>
      let t1 := t0 ++ [Event.initSvc Producer.customer 0]
      match env.addressInit with
      | Except.error e =>
          (Except.error ("failed to initialize address service: " ++ e),
           t1 ++ [Event.initSvc Producer.address 0])
      | Except.ok _ =>
        let t2 := t1 ++ [Event.initSvc Producer.address 0]
        match env.frontendInit with
        | Except.error e =>
            (Except.error ("failed to initialize frontend service: " ++ e),
             t2 ++ [Event.initSvc Producer.frontend 0])
        | Except.ok _ =>
          let t3 := t2 ++ [Event.initSvc Producer.frontend 0]
          match env.orderInit with
          | Except.error e =>
              (Except.error ("failed to initialize order service: " ++ e),
               t3 ++ [Event.initSvc Producer.order 0])
          | Except.ok _ =>
            let t4 := t3 ++ [Event.initSvc Producer.order 0]
            let t5 := t4 ++ [Event.startBackground Producer.address,
                             Event.startBackground Producer.order,
                             Event.buildChooser]
            match env.chooserRes with
            | Except.error e =>
                (Except.error ("failed to create random chooser: " ++ e), t5)
            | Except.ok _ =>
                (Except.ok (ShopM.mk cfg newChoices), t5)

/-- All five constructor steps of New succeeded, so New reached the
context creation and the init sequence. -/
def okCtors (env : Env) : Prop :=
  env.srOk = true ∧ env.customerNewOk = true ∧ env.addressNewOk = true ∧
    env.frontendNewOk = true ∧ env.orderNewOk = true

/-- All four service init calls succeeded. -/
def allInitsOk (env : Env) : Prop :=
  env.customerInit = Except.ok () ∧ env.addressInit = Except.ok () ∧
    env.frontendInit = Except.ok () ∧ env.orderInit = Except.ok ()

/-- The init result New observes for a given producer. -/
def initRes (env : Env) : Producer → Except String Unit
  | Producer.customer => env.customerInit
  | Producer.address => env.addressInit
  | Producer.frontend => env.frontendInit
  | Producer.order => env.orderInit

/-- Position of each producer in the declared init order of New. -/
def pIdx : Producer → Nat
  | Producer.customer => 0
  | Producer.address => 1
  | Producer.frontend => 2
  | Producer.order => 3

/-- The wrapped error message New returns when a given producer fails
its init call, with the underlying cause appended (fmt.Errorf with a
wrapped cause). -/
def initErrMsg : Producer → String → String
  | Producer.customer, e => "failed to initialize customer service: " ++ e
  | Producer.address, e => "failed to initialize address service: " ++ e
  | Producer.frontend, e => "failed to initialize frontend service: " ++ e
  | Producer.order, e => "failed to initialize order service: " ++ e

/-- No init event for any producer strictly after p in declared order
appears in the trace. -/
def noLaterInit (p : Producer) (tr : List Event) : Prop :=
  ∀ q i, pIdx p < pIdx q → Event.initSvc q i ∉ tr

/-- No background task launch appears in the trace. -/
def noBackgroundStart (tr : List Event) : Prop :=
  ∀ q, Event.startBackground q ∉ tr

/-- Per-event check that any context created carries id 0 and the
one-minute timeout, and every init call received context id 0. -/
def evCtxOk : Event → Bool
  | Event.mkContext id t => id == 0 && t == timeMinute
  | Event.initSvc _ i => i == 0
  | _ => true

/-- Recognizer for context-creation events. -/
def isMkCtx : Event → Bool
  | Event.mkContext _ _ => true
  | _ => false

/-- The full trace of a run of New in which every external call
succeeds or at least reaches the chooser construction. -/
def fullTrace : List Event :=
  [Event.mkContext 0 timeMinute,
   Event.initSvc Producer.customer 0,
   Event.initSvc Producer.address 0,
   Event.initSvc Producer.frontend 0,
   Event.initSvc Producer.order 0,
   Event.startBackground Producer.address,
   Event.startBackground Producer.order,
   Event.buildChooser]

/-- Modelled from the spec: the four producers run their init calls
sequentially under the single shared deadline context; an init that
would complete only after the shared deadline has elapsed fails with a
deadline-exceeded cause. The producer implementations are not under
src/, so their deadline behavior follows spec sections 4.2 and 8. Each
producer p takes d p nanoseconds; elapsed time accumulates across the
sequence and is checked against the shared one-minute deadline. -/
def runInitsTimed (d : Producer → Nat) : Except String Nat :=
  if timeMinute < d Producer.customer then
    Except.error "context deadline exceeded"
  else if timeMinute < d Producer.customer + d Producer.address then
    Except.error "context deadline exceeded"
  else if timeMinute < d Producer.customer + d Producer.address + d Producer.frontend then
    Except.error "context deadline exceeded"
  else if timeMinute < d Producer.customer + d Producer.address + d Producer.frontend + d Producer.order then
    Except.error "context deadline exceeded"
  else
    Except.ok (d Producer.customer + d Producer.address + d Producer.frontend + d Producer.order)

/-- Modelled from the spec: the weighted-random Chooser
(github.com/mroth/weightedrand is an external dependency, not under
src/). Spec section 4.1: built once from a non-empty sequence of
choices with strictly positive weights; these invariants are carried
in the structure. -/
structure Chooser where
  entries : List Choice
  nonemptyEntries : entries ≠ []
  positiveWeights : ∀ c ∈ entries, 0 < c.weight

/-- Total weight of a choice list. -/
def totalWeight (l : List Choice) : Int := (l.map (fun c => c.weight)).sum

/-- Modelled from the spec: Chooser construction fails at construction
time on zero entries or on any non-positive weight (spec sections 4.1
and 8), and otherwise succeeds. -/
def NewChooser (entries : List Choice) : Except String Chooser :=
  if h1 : entries = [] then
    Except.error "weightedrand: no choices with positive weight"
  else if h2 : ∀ c ∈ entries, 0 < c.weight then
    Except.ok (Chooser.mk entries h1 h2)
  else
    Except.error "weightedrand: weight must be a positive integer"

/-- Modelled from the spec: pick resolves a uniformly drawn value r in
the half-open range from 0 to the total weight by walking the
cumulative weights; returns the first entry whose cumulative weight
exceeds r. Returns none only when r falls outside the table, which the
Chooser invariants rule out. -/
def pickFrom : List Choice → Int → Option ActionId
  | [], _ => none
  | c :: rest, r => if r < c.weight then some c.item else pickFrom rest (r - c.weight)

/-- The Chooser built from the fixed table of New. -/
def chNew : Chooser :=
  Chooser.mk newChoices (by decide) (by decide)

/-- Completion status of one dispatched impression task: tasks may
succeed, fail inside the producer, or still be in flight. The dispatch
loop never inspects this. -/
inductive TaskStatus where
  | success
  | failed
  | inFlight
deriving DecidableEq, Repr

/-- State of the Start dispatch loop: the pageImpressionsSimulated
counter, the number of impressions dispatched (goroutines spawned),
the completion status of each spawned task (written by the tasks, never
read by the loop), the number of sleeps performed and total time slept. -/
structure LoopState where
  counter : Nat
  issued : Nat
  statuses : List TaskStatus
  sleeps : Nat
  sleptTime : Nat
deriving DecidableEq, Repr

/-- The loop state before the first tick. -/
def initLoop : LoopState := LoopState.mk 0 0 [] 0 0

/-- One iteration of the inner loop of Start (shop.go lines 117-120):
increment the impressions counter, then dispatch one impression as an
independent task whose eventual status res names but the loop ignores. -/
def dispatchOne (res : Nat → TaskStatus) (s : LoopState) : LoopState :=
  LoopState.mk (s.counter + 1) (s.issued + 1) (s.statuses ++ [res s.issued])
    s.sleeps s.sleptTime

/-- One tick of the outer loop of Start (shop.go lines 116-122): R
back-to-back iterations of dispatchOne, then one sleep of D. -/
def tick (res : Nat → TaskStatus) (R D : Nat) (s : LoopState) : LoopState :=
  let s2 := (dispatchOne res)^[R] s
  LoopState.mk s2.counter s2.issued s2.statuses (s2.sleeps + 1) (s2.sleptTime + D)

/-- The dispatch loop of Start after k full intervals, reading
RequestRate and RequestRateInterval from the config. -/
def startTicks (res : Nat → TaskStatus) (cfg : Config) (k : Nat) : LoopState :=
  (tick res cfg.requestRate cfg.requestRateInterval)^[k] initLoop

/-- Number of dispatched tasks still in flight. -/
def outstanding (s : LoopState) : Nat := s.statuses.count TaskStatus.inFlight

/-- Result of one pass through the body of the infinite for loop in
Start: either the loop continues with a new state, or Start returns.
The source loop body (shop.go lines 116-122) has no return, break or
exit path, which the step function below witnesses. -/
inductive StepRes where
  | next (s : LoopState)
  | ret (e : Option String)

/-- One pass through the loop body of Start: always continues with the
ticked state; there is no branch producing StepRes.ret. -/
def startLoopStep (res : Nat → TaskStatus) (cfg : Config) (s : LoopState) : StepRes :=
  StepRes.next (tick res cfg.requestRate cfg.requestRateInterval s)

/-- Observable state of Start (shop.go lines 109-123): the message the
metrics-server goroutine logs when ListenAndServe returns an error, and
the dispatch loop state. The loop state is built without reference to
the server outcome, as in the source, where the error is consumed
inside the goroutine at line 113. -/
structure StartState where
  serverLogged : Option String
  loop : LoopState

/-- Shallow embedding of Start after k ticks, with serverErr the error
the metrics HTTP server goroutine observed (none while it serves). -/
def startRun (serverErr : Option String) (res : Nat → TaskStatus)
    (cfg : Config) (k : Nat) : StartState :=
  StartState.mk
    (serverErr.map (fun e => "prometheus http handler quit: " ++ e))
    (startTicks res cfg k)

/-- Result of the type check in SimulatePageImpression (shop.go lines
129-135): the picked value either converts to a zero-argument func, or
it does not. -/
inductive Picked where
  | fn (a : ActionId)
  | notFn
deriving DecidableEq, Repr

/-- What the dispatching goroutine does with the picked value: invoke
it, or terminate the process via logger.Fatal. -/
inductive DispatchOutcome where
  | invoked (a : ActionId)
  | fatal
deriving DecidableEq, Repr

/-- Shallow embedding of the goroutine body of SimulatePageImpression:
assert the picked value to func() and invoke it, else logger.Fatal
(process termination). -/
def simulatePageImpression : Picked → DispatchOutcome
  | Picked.fn a => DispatchOutcome.invoked a
  | Picked.notFn => DispatchOutcome.fatal

/-- Environment in which every external call of New succeeds. -/
def envAllOk : Env :=
  Env.mk true true true true true (Except.ok ()) (Except.ok ()) (Except.ok ())
    (Except.ok ()) (Except.ok ())

/-- Environment in which the address service init call fails. -/
def envAddrFail : Env :=
  Env.mk true true true true true (Except.ok ()) (Except.error "boom")
    (Except.ok ()) (Except.ok ()) (Except.ok ())

/-- Environment in which only the chooser construction fails. -/
def envChooserFail : Env :=
  Env.mk true true true true true (Except.ok ()) (Except.ok ()) (Except.ok ())
    (Except.ok ()) (Except.error "boom")

/-- A sample configuration. -/
def cfg0 : Config := Config.mk 10 1000

lemma runNew_customerFail (env : Env) (cfg : Config) (e : String)
    (h1 : env.srOk = true) (h2 : env.customerNewOk = true)
    (h3 : env.addressNewOk = true) (h4 : env.frontendNewOk = true)
    (h5 : env.orderNewOk = true) (hc : env.customerInit = Except.error e) :
    runNew env cfg
      = (Except.error ("failed to initialize customer service: " ++ e),
         [Event.mkContext 0 timeMinute, Event.initSvc Producer.customer 0]) := by
  simp [runNew, h1, h2, h3, h4, h5, hc]

lemma runNew_addressFail (env : Env) (cfg : Config) (e : String)
    (h1 : env.srOk = true) (h2 : env.customerNewOk = true)
    (h3 : env.addressNewOk = true) (h4 : env.frontendNewOk = true)
    (h5 : env.orderNewOk = true) (hc : env.customerInit = Except.ok ())
    (ha : env.addressInit = Except.error e) :
    runNew env cfg
      = (Except.error ("failed to initialize address service: " ++ e),
         [Event.mkContext 0 timeMinute, Event.initSvc Producer.customer 0,
          Event.initSvc Producer.address 0]) := by
  simp [runNew, h1, h2, h3, h4, h5, hc, ha]

lemma runNew_frontendFail (env : Env) (cfg : Config) (e : String)
    (h1 : env.srOk = true) (h2 : env.customerNewOk = true)
    (h3 : env.addressNewOk = true) (h4 : env.frontendNewOk = true)
    (h5 : env.orderNewOk = true) (hc : env.customerInit = Except.ok ())
    (ha : env.addressInit = Except.ok ()) (hf : env.frontendInit = Except.error e) :
    runNew env cfg
      = (Except.error ("failed to initialize frontend service: " ++ e),
         [Event.mkContext 0 timeMinute, Event.initSvc Producer.customer 0,
          Event.initSvc Producer.address 0, Event.initSvc Producer.frontend 0]) := by
  simp [runNew, h1, h2, h3, h4, h5, hc, ha, hf]

lemma runNew_orderFail (env : Env) (cfg : Config) (e : String)
    (h1 : env.srOk = true) (h2 : env.customerNewOk = true)
    (h3 : env.addressNewOk = true) (h4 : env.frontendNewOk = true)
    (h5 : env.orderNewOk = true) (hc : env.customerInit = Except.ok ())
    (ha : env.addressInit = Except.ok ()) (hf : env.frontendInit = Except.ok ())
    (ho : env.orderInit = Except.error e) :
    runNew env cfg
      = (Except.error ("failed to initialize order service: " ++ e),
         [Event.mkContext 0 timeMinute, Event.initSvc Producer.customer 0,
          Event.initSvc Producer.address 0, Event.initSvc Producer.frontend 0,
          Event.initSvc Producer.order 0]) := by
  simp [runNew, h1, h2, h3, h4, h5, hc, ha, hf, ho]

lemma runNew_chooserFail (env : Env) (cfg : Config) (e : String)
    (h1 : env.srOk = true) (h2 : env.customerNewOk = true)
    (h3 : env.addressNewOk = true) (h4 : env.frontendNewOk = true)
    (h5 : env.orderNewOk = true) (hc : env.customerInit = Except.ok ())
    (ha : env.addressInit = Except.ok ()) (hf : env.frontendInit = Except.ok ())
    (ho : env.orderInit = Except.ok ())
    (hch : env.chooserRes = Except.error e) :
    runNew env cfg
      = (Except.error ("failed to create random chooser: " ++ e), fullTrace) := by
  simp [runNew, h1, h2, h3, h4, h5, hc, ha, hf, ho, hch, fullTrace]

lemma runNew_allOk (env : Env) (cfg : Config)
    (h1 : env.srOk = true) (h2 : env.customerNewOk = true)
    (h3 : env.addressNewOk = true) (h4 : env.frontendNewOk = true)
    (h5 : env.orderNewOk = true) (hc : env.customerInit = Except.ok ())
    (ha : env.addressInit = Except.ok ()) (hf : env.frontendInit = Except.ok ())
    (ho : env.orderInit = Except.ok ()) (hch : env.chooserRes = Except.ok ()) :
    runNew env cfg = (Except.ok (ShopM.mk cfg newChoices), fullTrace) := by
  simp [runNew, h1, h2, h3, h4, h5, hc, ha, hf, ho, hch, fullTrace]

lemma trace_indep (env : Env) (cfg cfg2 : Config) :
    (runNew env cfg).2 = (runNew env cfg2).2 := by
  rcases env with ⟨sr, cn, an, fe, oe, ci, ai, fi, oi, ch⟩
  cases sr <;> cases cn <;> cases an <;> cases fe <;> cases oe <;>
    cases ci <;> cases ai <;> cases fi <;> cases oi <;> cases ch <;> rfl

lemma runNew_trace_ctx (env : Env) (cfg : Config) :
    (runNew env cfg).2.all evCtxOk = true := by
  rcases env with ⟨sr, cn, an, fe, oe, ci, ai, fi, oi, ch⟩
  cases sr <;> cases cn <;> cases an <;> cases fe <;> cases oe <;>
    cases ci <;> cases ai <;> cases fi <;> cases oi <;> cases ch <;> rfl

lemma runNew_one_ctx (env : Env) (cfg : Config) (hok : okCtors env) :
    (runNew env cfg).2.countP isMkCtx = 1 := by
  obtain ⟨h1, h2, h3, h4, h5⟩ := hok
  cases hc : env.customerInit with
  | error e => rw [runNew_customerFail env cfg e h1 h2 h3 h4 h5 hc]; rfl
  | ok u =>
    cases u
    cases ha : env.addressInit with
    | error e => rw [runNew_addressFail env cfg e h1 h2 h3 h4 h5 hc ha]; rfl
    | ok u =>
      cases u
      cases hf : env.frontendInit with
      | error e => rw [runNew_frontendFail env cfg e h1 h2 h3 h4 h5 hc ha hf]; rfl
      | ok u =>
        cases u
        cases ho : env.orderInit with
        | error e => rw [runNew_orderFail env cfg e h1 h2 h3 h4 h5 hc ha hf ho]; rfl
        | ok u =>
          cases u
          cases hch : env.chooserRes with
          | error e =>
              rw [runNew_chooserFail env cfg e h1 h2 h3 h4 h5 hc ha hf ho hch]; rfl
          | ok u =>
              cases u
              rw [runNew_allOk env cfg h1 h2 h3 h4 h5 hc ha hf ho hch]; rfl

lemma runNew_ok_shape (env : Env) (cfg : Config) (s : ShopM)
    (h : (runNew env cfg).1 = Except.ok s) : s = ShopM.mk cfg newChoices := by
  rcases env with ⟨sr, cn, an, fe, oe, ci, ai, fi, oi, ch⟩
  cases sr <;> cases cn <;> cases an <;> cases fe <;> cases oe <;>
    cases ci <;> cases ai <;> cases fi <;> cases oi <;> cases ch <;>
      first
      | exact Except.noConfusion h
      | (injection h with h2; exact h2.symm)

lemma totalWeight_cons (c : Choice) (l : List Choice) :
    totalWeight (c :: l) = c.weight + totalWeight l := by
  simp [totalWeight]

lemma pickFrom_total : ∀ l : List Choice, l ≠ [] → (∀ c ∈ l, 0 < c.weight) →
    ∀ r : Int, 0 ≤ r → r < totalWeight l → (pickFrom l r).isSome = true := by
  intro l
  induction l with
  | nil => intro hne; exact absurd rfl hne
  | cons b rest ih =>
    intro _ hpos r hr hlt
    by_cases hb : r < b.weight
    · simp [pickFrom, hb]
    · rcases rest with _ | ⟨c2, rest2⟩
      · rw [totalWeight_cons] at hlt
        simp [totalWeight] at hlt
        exact absurd hlt hb
      · simp only [pickFrom]
        rw [if_neg hb]
        refine ih (by simp) (fun c hcm => hpos c (List.mem_cons_of_mem _ hcm))
          (r - b.weight) (by omega) ?_
        rw [totalWeight_cons] at hlt
        omega

lemma dispatch_iter (res : Nat → TaskStatus) (n : Nat) (s : LoopState) :
    ((dispatchOne res)^[n] s).counter = s.counter + n ∧
    ((dispatchOne res)^[n] s).issued = s.issued + n ∧
    ((dispatchOne res)^[n] s).sleeps = s.sleeps ∧
    ((dispatchOne res)^[n] s).sleptTime = s.sleptTime ∧
    ((dispatchOne res)^[n] s).statuses.length = s.statuses.length + n := by
  induction n generalizing s with
  | zero => simp
  | succ m ih =>
    rw [Function.iterate_succ_apply]
    obtain ⟨h1, h2, h3, h4, h5⟩ := ih (dispatchOne res s)
    refine ⟨?_, ?_, ?_, ?_, ?_⟩ <;>
      simp only [h1, h2, h3, h4, h5] <;> simp [dispatchOne] <;> omega

lemma dispatch_iter_inflight (n : Nat) (s : LoopState) :
    ((dispatchOne (fun _ => TaskStatus.inFlight))^[n] s).statuses
      = s.statuses ++ List.replicate n TaskStatus.inFlight := by
  induction n generalizing s with
  | zero => simp
  | succ m ih =>
    rw [Function.iterate_succ_apply, ih]
    simp [dispatchOne, List.replicate_succ, List.append_assoc]

lemma tick_eval (res : Nat → TaskStatus) (R D : Nat) (s : LoopState) :
    (tick res R D s).counter = s.counter + R ∧
    (tick res R D s).issued = s.issued + R ∧
    (tick res R D s).sleeps = s.sleeps + 1 ∧
    (tick res R D s).sleptTime = s.sleptTime + D ∧
    (tick res R D s).statuses.length = s.statuses.length + R := by
  obtain ⟨h1, h2, h3, h4, h5⟩ := dispatch_iter res R s
  simp [tick, h1, h2, h3, h4, h5]

lemma startTicks_succ (res : Nat → TaskStatus) (cfg : Config) (m : Nat) :
    startTicks res cfg (m + 1)
      = tick res cfg.requestRate cfg.requestRateInterval (startTicks res cfg m) := by
  simp [startTicks, Function.iterate_succ_apply']

lemma startTicks_eval (res : Nat → TaskStatus) (R D k : Nat) :
    (startTicks res (Config.mk R D) k).counter = k * R ∧
    (startTicks res (Config.mk R D) k).issued = k * R ∧
    (startTicks res (Config.mk R D) k).sleeps = k ∧
    (startTicks res (Config.mk R D) k).sleptTime = k * D ∧
    (startTicks res (Config.mk R D) k).statuses.length = k * R := by
  induction k with
  | zero => simp [startTicks, initLoop]
  | succ m ih =>
    obtain ⟨h1, h2, h3, h4, h5⟩ := ih
    obtain ⟨g1, g2, g3, g4, g5⟩ :=
      tick_eval res R D (startTicks res (Config.mk R D) m)
    rw [startTicks_succ]
    refine ⟨?_, ?_, ?_, ?_, ?_⟩
    · rw [g1, h1, Nat.succ_mul]
    · rw [g2, h2, Nat.succ_mul]
    · rw [g3, h3]
    · rw [g4, h4, Nat.succ_mul]
    · rw [g5, h5, Nat.succ_mul]

lemma startTicks_inflight (R D k : Nat) :
    (startTicks (fun _ => TaskStatus.inFlight) (Config.mk R D) k).statuses
      = List.replicate (k * R) TaskStatus.inFlight := by
  induction k with
  | zero => simp [startTicks, initLoop]
  | succ m ih =>
    rw [startTicks_succ]
    have ht : (tick (fun _ => TaskStatus.inFlight) R D
          (startTicks (fun _ => TaskStatus.inFlight) (Config.mk R D) m)).statuses
        = (startTicks (fun _ => TaskStatus.inFlight) (Config.mk R D) m).statuses
            ++ List.replicate R TaskStatus.inFlight := by
      simp [tick, dispatch_iter_inflight]
    rw [ht, ih, ← List.replicate_add, Nat.succ_mul]

/-- Claim C1: for positive requestRate R and positive interval D, each
tick of the Start loop performs exactly R iterations, each incrementing
the impressions counter and dispatching one impression, followed by one
sleep of D; after k full intervals exactly k*R impressions have been
issued and the counter equals k*R, independent of the completion
statuses of the dispatched actions. -/
theorem claim_C1_rate_loop (R D k : Nat) (res : Nat → TaskStatus)
    (hR : 0 < R) (hD : 0 < D) :
    (startTicks res (Config.mk R D) k).counter = k * R ∧
    (startTicks res (Config.mk R D) k).issued = k * R ∧
    (startTicks res (Config.mk R D) k).sleeps = k ∧
    (startTicks res (Config.mk R D) k).sleptTime = k * D ∧
    ∀ res2, (startTicks res2 (Config.mk R D) k).counter = k * R := by
  obtain ⟨h1, h2, h3, h4, _⟩ := startTicks_eval res R D k
  exact ⟨h1, h2, h3, h4, fun res2 => (startTicks_eval res2 R D k).1⟩

/-- Witness for C1 at R = 2, D = 5, k = 3. -/
theorem claim_C1_rate_loop_witness :
    0 < 2 ∧ 0 < 5 ∧
    ((startTicks (fun _ => TaskStatus.success) (Config.mk 2 5) 3).counter = 3 * 2 ∧
     (startTicks (fun _ => TaskStatus.success) (Config.mk 2 5) 3).issued = 3 * 2 ∧
     (startTicks (fun _ => TaskStatus.success) (Config.mk 2 5) 3).sleeps = 3 ∧
     (startTicks (fun _ => TaskStatus.success) (Config.mk 2 5) 3).sleptTime = 3 * 5 ∧
     ∀ res2, (startTicks res2 (Config.mk 2 5) 3).counter = 3 * 2) :=
  ⟨by decide, by decide,
   claim_C1_rate_loop 2 5 3 (fun _ => TaskStatus.success) (by decide) (by decide)⟩

/-- Claim C2: if the value picked by the Chooser cannot be asserted to
a zero-argument func, the dispatching goroutine terminates the whole
process via logger.Fatal; every dispatch either invokes an action or
terminates the process, so an impression is never silently dropped. -/
theorem claim_C2_fatal_on_bad_pick :
    simulatePageImpression Picked.notFn = DispatchOutcome.fatal ∧
    ∀ p, (∃ a, simulatePageImpression p = DispatchOutcome.invoked a) ∨
      simulatePageImpression p = DispatchOutcome.fatal := by
  refine ⟨rfl, ?_⟩
  intro p
  cases p with
  | fn a => exact Or.inl ⟨a, rfl⟩
  | notFn => exact Or.inr rfl

/-- Claim C7: each impression is dispatched as an independent task and
the loop never waits for it: after k ticks exactly k*R tasks have been
spawned and k sleeps performed whatever the statuses of the spawned
tasks are, the loop observables are identical for any two status
assignments, and when no task ever completes the outstanding work
grows without bound (equal to everything ever issued). -/
theorem claim_C7_fire_and_forget (R D k : Nat) (res : Nat → TaskStatus) :
    (startTicks res (Config.mk R D) k).issued = k * R ∧
    (startTicks res (Config.mk R D) k).sleeps = k ∧
    (∀ res2,
      (startTicks res2 (Config.mk R D) k).counter
          = (startTicks res (Config.mk R D) k).counter ∧
      (startTicks res2 (Config.mk R D) k).issued
          = (startTicks res (Config.mk R D) k).issued ∧
      (startTicks res2 (Config.mk R D) k).sleeps
          = (startTicks res (Config.mk R D) k).sleeps ∧
      (startTicks res2 (Config.mk R D) k).sleptTime
          = (startTicks res (Config.mk R D) k).sleptTime) ∧
    outstanding (startTicks (fun _ => TaskStatus.inFlight) (Config.mk R D) k)
        = k * R := by
  obtain ⟨h1, h2, h3, h4, _⟩ := startTicks_eval res R D k
  refine ⟨h2, h3, ?_, ?_⟩
  · intro res2
    obtain ⟨g1, g2, g3, g4, _⟩ := startTicks_eval res2 R D k
    exact ⟨g1.trans h1.symm, g2.trans h2.symm, g3.trans h3.symm, g4.trans h4.symm⟩
  · rw [outstanding, startTicks_inflight]
    exact List.count_replicate_self _ _

/-- Claim C10: an error from the metrics HTTP server is only logged by
its own goroutine; the dispatch loop state is the same whatever the
server outcome, the loop keeps issuing k*RequestRate impressions over
k ticks, and the loop body of Start has no returning branch, so Start
never returns after entering the loop. -/
theorem claim_C10_server_error_isolated (serverErr : Option String)
    (res : Nat → TaskStatus) (cfg : Config) (k : Nat) :
    (startRun serverErr res cfg k).serverLogged
        = serverErr.map (fun e => "prometheus http handler quit: " ++ e) ∧
    (startRun serverErr res cfg k).loop = (startRun none res cfg k).loop ∧
    (startRun serverErr res cfg k).loop.counter = k * cfg.requestRate ∧
    ∀ s, ∃ s2, startLoopStep res cfg s = StepRes.next s2 := by
  refine ⟨rfl, rfl, ?_, fun s => ⟨_, rfl⟩⟩
  exact (startTicks_eval res cfg.requestRate cfg.requestRateInterval k).1

/-- Claim C3: if any producer fails its init call, New returns an error
wrapping that producer and its cause, no later producer in the declared
order (customer, address, frontend, order) is initialized, no
background task is started, and the chooser is never built, so the
dispatch loop never starts. -/
theorem claim_C3_init_failfast (env : Env) (cfg : Config) (p : Producer)
    (e : String) (hok : okCtors env) (hfail : initRes env p = Except.error e)
    (hearlier : ∀ q, pIdx q < pIdx p → initRes env q = Except.ok ()) :
    (runNew env cfg).1 = Except.error (initErrMsg p e) ∧
    noLaterInit p (runNew env cfg).2 ∧
    noBackgroundStart (runNew env cfg).2 ∧
    Event.buildChooser ∉ (runNew env cfg).2 := by
  obtain ⟨h1, h2, h3, h4, h5⟩ := hok
  cases p with
  | customer =>
    simp only [initRes] at hfail
    rw [runNew_customerFail env cfg e h1 h2 h3 h4 h5 hfail]
    refine ⟨rfl, ?_, ?_, ?_⟩
    · intro q i hq hm
      simp at hm
      obtain ⟨rfl, -⟩ := hm
      simp [pIdx] at hq
    · intro q hm
      simp at hm
    · simp
  | address =>
    simp only [initRes] at hfail
    have hc := hearlier Producer.customer (by decide)
    simp only [initRes] at hc
    rw [runNew_addressFail env cfg e h1 h2 h3 h4 h5 hc hfail]
    refine ⟨rfl, ?_, ?_, ?_⟩
    · intro q i hq hm
      simp at hm
      rcases hm with ⟨rfl, -⟩ | ⟨rfl, -⟩ <;> simp [pIdx] at hq
    · intro q hm
      simp at hm
    · simp
  | frontend =>
    simp only [initRes] at hfail
    have hc := hearlier Producer.customer (by decide)
    have ha := hearlier Producer.address (by decide)
    simp only [initRes] at hc ha
    rw [runNew_frontendFail env cfg e h1 h2 h3 h4 h5 hc ha hfail]
    refine ⟨rfl, ?_, ?_, ?_⟩
    · intro q i hq hm
      simp at hm
      rcases hm with ⟨rfl, -⟩ | ⟨rfl, -⟩ | ⟨rfl, -⟩ <;> simp [pIdx] at hq
    · intro q hm
      simp at hm
    · simp
  | order =>
    simp only [initRes] at hfail
    have hc := hearlier Producer.customer (by decide)
    have ha := hearlier Producer.address (by decide)
    have hf := hearlier Producer.frontend (by decide)
    simp only [initRes] at hc ha hf
    rw [runNew_orderFail env cfg e h1 h2 h3 h4 h5 hc ha hf hfail]
    refine ⟨rfl, ?_, ?_, ?_⟩
    · intro q i hq hm
      simp at hm
      rcases hm with ⟨rfl, -⟩ | ⟨rfl, -⟩ | ⟨rfl, -⟩ | ⟨rfl, -⟩ <;>
        simp [pIdx] at hq
    · intro q hm
      simp at hm
    · simp

/-- Witness for C3: the address service init call fails. -/
theorem claim_C3_init_failfast_witness :
    (runNew envAddrFail cfg0).1 = Except.error (initErrMsg Producer.address "boom") ∧
    noLaterInit Producer.address (runNew envAddrFail cfg0).2 ∧
    noBackgroundStart (runNew envAddrFail cfg0).2 ∧
    Event.buildChooser ∉ (runNew envAddrFail cfg0).2 :=
  claim_C3_init_failfast envAddrFail cfg0 Producer.address "boom"
    ⟨rfl, rfl, rfl, rfl, rfl⟩ rfl
    (by
      intro q hq
      cases q with
      | customer => rfl
      | address => simp [pIdx] at hq
      | frontend => simp [pIdx] at hq
      | order => simp [pIdx] at hq)

/-- Claim C4: every context-creation event of New carries the fixed
one-minute timeout and every init call receives context id 0; when New
reaches the init sequence exactly one context is created, shared by all
four init calls; and in the timed model of the producers under the
shared deadline, a sequence whose total duration exceeds one minute
fails with a deadline-exceeded cause even though each producer would
individually finish. -/
theorem claim_C4_shared_deadline :
    (∀ env cfg, (runNew env cfg).2.all evCtxOk = true) ∧
    (∀ env cfg, okCtors env → (runNew env cfg).2.countP isMkCtx = 1) ∧
    (∀ d : Producer → Nat,
      timeMinute < d Producer.customer + d Producer.address
          + d Producer.frontend + d Producer.order →
      runInitsTimed d = Except.error "context deadline exceeded") := by
  refine ⟨runNew_trace_ctx, runNew_one_ctx, ?_⟩
  intro d hd
  unfold runInitsTimed
  split_ifs <;> rfl

/-- Witness for C4: one context with all-ok environment; four producers
of 20 seconds each exceed the shared one-minute deadline. -/
theorem claim_C4_shared_deadline_witness :
    (runNew envAllOk cfg0).2.countP isMkCtx = 1 ∧
    runInitsTimed (fun _ => 20000000000) = Except.error "context deadline exceeded" :=
  ⟨claim_C4_shared_deadline.2.1 envAllOk cfg0 ⟨rfl, rfl, rfl, rfl, rfl⟩,
   claim_C4_shared_deadline.2.2 (fun _ => 20000000000) (by decide)⟩

/-- Claim C5: whenever New succeeds, the weighted table of the returned
shop has exactly six entries whose items and weights are, in order,
frontend-event=1000, customer-create=50, address-create=30,
customer-delete=8, customer-modify=6, order-create=5, and each item is
the zero-argument method of the corresponding producer. -/
theorem claim_C5_weight_table (env : Env) (cfg : Config) (s : ShopM)
    (h : (runNew env cfg).1 = Except.ok s) :
    s.choices.length = 6 ∧
    s.choices.map (fun c => (c.item, c.weight)) =
      [(ActionId.createFrontendEvent, (1000 : Int)),
       (ActionId.createCustomer, 50),
       (ActionId.createAddress, 30),
       (ActionId.deleteCustomer, 8),
       (ActionId.modifyCustomer, 6),
       (ActionId.createOrder, 5)] ∧
    s.choices.map (fun c => ownerOf c.item) =
      [Producer.frontend, Producer.customer, Producer.address,
       Producer.customer, Producer.customer, Producer.order] := by
  have hs := runNew_ok_shape env cfg s h
  subst hs
  exact ⟨rfl, rfl, rfl⟩

/-- Witness for C5: the all-ok environment. -/
theorem claim_C5_weight_table_witness :
    (ShopM.mk cfg0 newChoices).choices.length = 6 ∧
    (ShopM.mk cfg0 newChoices).choices.map (fun c => (c.item, c.weight)) =
      [(ActionId.createFrontendEvent, (1000 : Int)),
       (ActionId.createCustomer, 50),
       (ActionId.createAddress, 30),
       (ActionId.deleteCustomer, 8),
       (ActionId.modifyCustomer, 6),
       (ActionId.createOrder, 5)] ∧
    (ShopM.mk cfg0 newChoices).choices.map (fun c => ownerOf c.item) =
      [Producer.frontend, Producer.customer, Producer.address,
       Producer.customer, Producer.customer, Producer.order] :=
  claim_C5_weight_table envAllOk cfg0 (ShopM.mk cfg0 newChoices) rfl

/-- Claim C6: Chooser construction with zero entries or with any
non-positive weight fails at construction time; once construction
succeeds a pick inside the weight range never fails; and a chooser
construction error propagates out of New as an error, so the engine
never starts the dispatch loop. -/
theorem claim_C6_chooser_construction :
    (∀ l : List Choice, l = [] → ∃ msg, NewChooser l = Except.error msg) ∧
    (∀ (l : List Choice) (c : Choice), c ∈ l → c.weight ≤ 0 →
        ∃ msg, NewChooser l = Except.error msg) ∧
    (∀ (l : List Choice) (ch : Chooser), NewChooser l = Except.ok ch →
        ∀ r : Int, 0 ≤ r → r < totalWeight ch.entries →
          (pickFrom ch.entries r).isSome = true) ∧
    (∀ (env : Env) (cfg : Config) (e : String), okCtors env → allInitsOk env →
        env.chooserRes = Except.error e →
        (runNew env cfg).1 = Except.error ("failed to create random chooser: " ++ e)) := by
  refine ⟨?_, ?_, ?_, ?_⟩
  · intro l hl
    subst hl
    exact ⟨_, rfl⟩
  · intro l c hc hw
    refine ⟨"weightedrand: weight must be a positive integer", ?_⟩
    have hne : l ≠ [] := by
      intro h
      subst h
      simp at hc
    have hnall : ¬ ∀ x ∈ l, 0 < x.weight := by
      intro hall
      exact absurd (hall c hc) (by omega)
    unfold NewChooser
    rw [dif_neg hne, dif_neg hnall]
  · intro l ch h r hr hlt
    unfold NewChooser at h
    by_cases hne : l = []
    · rw [dif_pos hne] at h
      exact Except.noConfusion h
    · rw [dif_neg hne] at h
      by_cases hall : ∀ c ∈ l, 0 < c.weight
      · rw [dif_pos hall] at h
        injection h with h2
        subst h2
        exact pickFrom_total l hne hall r hr hlt
      · rw [dif_neg hall] at h
        exact Except.noConfusion h
  · intro env cfg e hok hinits hch
    obtain ⟨h1, h2, h3, h4, h5⟩ := hok
    obtain ⟨hc, ha, hf, ho⟩ := hinits
    rw [runNew_chooserFail env cfg e h1 h2 h3 h4 h5 hc ha hf ho hch]

/-- Witness for C6: the empty table and a zero-weight table fail; the
table of New picks totally at r = 500; a chooser error aborts New. -/
theorem claim_C6_chooser_construction_witness :
    (∃ msg, NewChooser [] = Except.error msg) ∧
    (∃ msg, NewChooser [Choice.mk ActionId.createOrder 0] = Except.error msg) ∧
    (pickFrom chNew.entries 500).isSome = true ∧
    (runNew envChooserFail cfg0).1
        = Except.error ("failed to create random chooser: " ++ "boom") :=
  ⟨claim_C6_chooser_construction.1 [] rfl,
   claim_C6_chooser_construction.2.1 [Choice.mk ActionId.createOrder 0]
     (Choice.mk ActionId.createOrder 0) (by decide) (by decide),
   claim_C6_chooser_construction.2.2.1 newChoices chNew rfl 500
     (by decide) (by decide),
   claim_C6_chooser_construction.2.2.2 envChooserFail cfg0 "boom"
     ⟨rfl, rfl, rfl, rfl, rfl⟩ ⟨rfl, rfl, rfl, rfl⟩ rfl⟩

/-- Claim C8: the startup deadline is hard-coded: the event trace of
New is identical for any two configurations, every context created
carries the one-minute timeout, and that timeout is the constant
60000000000 nanoseconds (Go time.Minute), derived from nothing in the
configuration. -/
theorem claim_C8_hardcoded_deadline :
    (∀ env cfg cfg2, (runNew env cfg).2 = (runNew env cfg2).2) ∧
    (∀ env cfg, (runNew env cfg).2.all evCtxOk = true) ∧
    timeMinute = 60000000000 :=
  ⟨trace_indep, runNew_trace_ctx, rfl⟩

/-- Claim C9: when all init calls succeed but the chooser construction
fails, New returns an error although the address and order background
tasks were already launched: both launch events are in the trace,
strictly before the chooser-construction event, and nothing stops
them. -/
theorem claim_C9_background_before_chooser (env : Env) (cfg : Config)
    (e : String) (hok : okCtors env) (hinits : allInitsOk env)
    (hch : env.chooserRes = Except.error e) :
    (runNew env cfg).1 = Except.error ("failed to create random chooser: " ++ e) ∧
    (runNew env cfg).2 = fullTrace ∧
    Event.startBackground Producer.address ∈ (runNew env cfg).2 ∧
    Event.startBackground Producer.order ∈ (runNew env cfg).2 ∧
    Event.startBackground Producer.address ∈ fullTrace.dropLast ∧
    Event.startBackground Producer.order ∈ fullTrace.dropLast ∧
    fullTrace.getLast? = some Event.buildChooser := by
  obtain ⟨h1, h2, h3, h4, h5⟩ := hok
  obtain ⟨hc, ha, hf, ho⟩ := hinits
  rw [runNew_chooserFail env cfg e h1 h2 h3 h4 h5 hc ha hf ho hch]
  refine ⟨rfl, rfl, ?_, ?_, ?_, ?_, rfl⟩
  · show Event.startBackground Producer.address ∈ fullTrace
    decide
  · show Event.startBackground Producer.order ∈ fullTrace
    decide
  · decide
  · decide

/-- Witness for C9: the chooser-failure environment. -/
theorem claim_C9_background_before_chooser_witness :
    (runNew envChooserFail cfg0).1
        = Except.error ("failed to create random chooser: " ++ "boom") ∧
    (runNew envChooserFail cfg0).2 = fullTrace ∧
    Event.startBackground Producer.address ∈ (runNew envChooserFail cfg0).2 ∧
    Event.startBackground Producer.order ∈ (runNew envChooserFail cfg0).2 ∧
    Event.startBackground Producer.address ∈ fullTrace.dropLast ∧
    Event.startBackground Producer.order ∈ fullTrace.dropLast ∧
    fullTrace.getLast? = some Event.buildChooser :=
  claim_C9_background_before_chooser envChooserFail cfg0 "boom"
    ⟨rfl, rfl, rfl, rfl, rfl⟩ ⟨rfl, rfl, rfl, rfl⟩ rfl

end OwlShop
